import Mathlib

/-!
Verification of the workflow/task subsystem of `src/core/main.py`
(`list_tasks`, `get_task`, `complete_task`) against its specification.

Modelling conventions, chosen to mirror the Python/SQLAlchemy source:

* Database rows (`Context`, `WorkflowStep`, `ObjectWorkflowMapping`) are Lean
  structures; the database is a triple of row lists.  `context_id` and
  `step_id` are primary keys, so the `join` through `Context` is modelled as a
  membership test over the context table, while the join through
  `ObjectWorkflowMapping` (no uniqueness on `(step_id, object_type, object_id)`)
  is modelled with row multiplicity, as an SQL inner join produces it.
* JSON payloads (`request_data`, `response_data`) are modelled by the
  inductive `JVal`; a Python `dict` is an association list.
* Python truthiness (`if status:`, `response_data or ...`) is modelled
  explicitly: `None`, the empty string and the empty dict are falsy.
* Timestamps are `Nat`; `datetime.isoformat()` is modelled as decimal
  rendering.  SQL `OFFSET`/`LIMIT` take non-negative values, so `offset` and
  `limit` are `Nat`.
* `ORDER BY created_at DESC` constrains only `created_at`; the executable
  model `list_tasks` picks one concrete compliant order (insertion sort),
  while the `possibleSelection` predicate captures every row order the SQL
  query may return (any permutation sorted by `created_at` descending).
* Tenant/principal resolution, sessions and audit logging are outside the
  claims; the resolved `tenant_id` and `principal_id` are passed as arguments.
  `complete_task` returns the receipt (or the raised error message) together
  with the resulting database; on every error path the database is returned
  unchanged, as the session rollback guarantees in the source.
-/

/-- JSON-like values stored in `request_data` / `response_data` payloads. -/
inductive JVal where
  | str : String → JVal
  | boolean : Bool → JVal
  | nullv : JVal
  | num : Int → JVal
  | dict : List (String × JVal) → JVal

/-- A Python dict payload: an association list of string keys to values. -/
abbrev PyDict := List (String × JVal)

/-- Row of the `contexts` table (the source imports it as `DBContext`);
`context_id` is the primary key. -/
structure DBContext where
  context_id : String
  tenant_id : String

/-- Row of the `workflow_steps` table; `step_id` is the primary key.  Steps
carry no `tenant_id`: tenancy is derived through the owning `DBContext`. -/
structure WorkflowStep where
  step_id : String
  context_id : String
  status : String
  step_type : String
  tool_name : String
  owner : String
  created_at : Nat
  completed_at : Option Nat
  request_data : Option PyDict
  response_data : Option PyDict
  error_message : Option String

/-- Row of the `object_workflow_mappings` table. -/
structure ObjectWorkflowMapping where
  step_id : String
  object_type : String
  object_id : String
  action : String
  created_at : Nat

/-- The relational state the three tools read and write. -/
structure Database where
  contexts : List DBContext
  steps : List WorkflowStep
  mappings : List ObjectWorkflowMapping

/-- Python truthiness of an optional string (`None` and `""` are falsy). -/
def strTruthy : Option String → Bool
  | none => false
  | some s => !(s == "")

/-- Python truthiness of an optional dict (`None` and `\x7b\x7d` are falsy). -/
def dictTruthy : Option PyDict → Bool
  | none => false
  | some d => !d.isEmpty

/-- Python `a or b` for an optional string `a` and a string default `b`. -/
def pyStrOr (a : Option String) (b : String) : String :=
  match a with
  | none => b
  | some s => if s == "" then b else s

/-- Python `a or b` for an optional dict `a` and a dict default `b`. -/
def pyDictOr (a : Option PyDict) (b : PyDict) : PyDict :=
  match a with
  | none => b
  | some d => if d.isEmpty then b else d

/-- Python truthiness of a JSON value. -/
def jtruthy : JVal → Bool
  | .str s => !(s == "")
  | .boolean b => b
  | .nullv => false
  | .num n => !(n == 0)
  | .dict d => !d.isEmpty

/-- Python `dict.get(k)` without default: `none` when the key is absent. -/
def dget (d : PyDict) (k : String) : Option JVal :=
  (d.find? (fun kv => kv.1 == k)).map (fun kv => kv.2)

/-- The tenant-scoping join of the source: a step is visible to a tenant when
the `contexts` table holds its `context_id` under that `tenant_id`
(`select(WorkflowStep).join(DBContext).filter(DBContext.tenant_id == ...)`). -/
def stepInTenant (db : Database) (tenant_id : String) (s : WorkflowStep) : Bool :=
  db.contexts.any (fun c => c.context_id == s.context_id && c.tenant_id == tenant_id)

/-- Base query of `list_tasks`: all workflow steps of the resolved tenant. -/
def tenantRows (db : Database) (tenant_id : String) : List WorkflowStep :=
  db.steps.filter (fun s => stepInTenant db tenant_id s)

/-- The `if status:` filter of `list_tasks` (a falsy status applies no filter). -/
def statusRows (rows : List WorkflowStep) : Option String → List WorkflowStep
  | none => rows
  | some st => if st == "" then rows else rows.filter (fun s => s.status == st)

/-- Inner join with `ObjectWorkflowMapping` on `object_type` and `object_id`:
one row per matching mapping, as SQL produces it. -/
def joinTypeId (db : Database) (rows : List WorkflowStep) (ot oid : String) :
    List WorkflowStep :=
  rows.flatMap (fun s =>
    (db.mappings.filter (fun m =>
      m.step_id == s.step_id && m.object_type == ot && m.object_id == oid)).map
      (fun _ => s))

/-- Inner join with `ObjectWorkflowMapping` on `object_type` alone. -/
def joinType (db : Database) (rows : List WorkflowStep) (ot : String) :
    List WorkflowStep :=
  rows.flatMap (fun s =>
    (db.mappings.filter (fun m =>
      m.step_id == s.step_id && m.object_type == ot)).map (fun _ => s))

/-- The object filters of `list_tasks`: `if object_type and object_id:` joins
on both, `elif object_type:` joins on the type alone, and otherwise — in
particular whenever `object_type` is falsy, whatever `object_id` holds — no
filter is applied. -/
def objectRows (db : Database) (rows : List WorkflowStep) :
    Option String → Option String → List WorkflowStep
  | some ot, some oid =>
      if ot == "" then rows
      else if oid == "" then joinType db rows ot
      else joinTypeId db rows ot oid
  | some ot, none => if ot == "" then rows else joinType db rows ot
  | none, _ => rows

/-- The filtered, unpaginated query of `list_tasks`; its length is what the
`count()` subquery returns as `total`. -/
def filteredRows (db : Database) (tenant_id : String)
    (status object_type object_id : Option String) : List WorkflowStep :=
  objectRows db (statusRows (tenantRows db tenant_id) status) object_type object_id

/-- The ordering constraint of `order_by(WorkflowStep.created_at.desc())`:
later-created steps come first.  Nothing else is constrained — the source
uses no secondary sort key. -/
def taskOrder (a b : WorkflowStep) : Prop :=
  b.created_at ≤ a.created_at

instance : DecidableRel taskOrder := fun a b => Nat.decLe b.created_at a.created_at

instance : IsTotal WorkflowStep taskOrder :=
  ⟨fun a b => Nat.le_total b.created_at a.created_at⟩

instance : IsTrans WorkflowStep taskOrder :=
  ⟨fun _ _ _ hab hbc => Nat.le_trans hbc hab⟩

/-- One sort order compliant with `ORDER BY created_at DESC`, used by the
executable model. -/
def sortedRows (rows : List WorkflowStep) : List WorkflowStep :=
  List.insertionSort taskOrder rows

/-- An associated object as `list_tasks` formats it. -/
structure AssociatedObject where
  type : String
  id : String
  action : String

/-- The best-effort `summary` projection of `request_data`. -/
structure TaskSummary where
  operation : Option JVal
  media_buy_id : Option JVal
  po_number : Option JVal

/-- One entry of the `tasks` list returned by `list_tasks`.  Optional fields
model dict keys the source only sometimes adds. -/
structure FormattedTask where
  task_id : String
  status : String
  type : String
  tool_name : String
  owner : String
  created_at : String
  updated_at : Option String
  context_id : String
  associated_objects : List AssociatedObject
  error_message : Option String
  summary : Option TaskSummary

/-- Timestamp rendering standing in for `datetime.isoformat()`. -/
def isoformat (t : Nat) : String := toString t

/-- The `po_number` summary field:
`request_data.get("request", \x7b\x7d).get("po_number") if request_data.get("request") else None`.
A truthy non-dict `"request"` value would raise in Python; no claim reaches
that path and it is modelled as `none`. -/
def poNumber (d : PyDict) : Option JVal :=
  match dget d ("request") with
  | none => none
  | some v =>
      if jtruthy v then
        match v with
        | .dict d2 => dget d2 ("po_number")
        | _ => none
      else none

/-- Formatting of one task in the `list_tasks` response: the mapping lookup by
`step_id`, the conditional `error_message` key (only for a failed step with a
truthy message) and the conditional `summary` key (only for a truthy dict
`request_data`). -/
def formatTask (db : Database) (task : WorkflowStep) : FormattedTask :=
  let mappings := db.mappings.filter (fun m => m.step_id == task.step_id)
  { task_id := task.step_id
    status := task.status
    type := task.step_type
    tool_name := task.tool_name
    owner := task.owner
    created_at := isoformat task.created_at
    updated_at := none
    context_id := task.context_id
    associated_objects :=
      mappings.map (fun m => { type := m.object_type, id := m.object_id, action := m.action })
    error_message :=
      if task.status == "failed" && strTruthy task.error_message then task.error_message
      else none
    summary :=
      match task.request_data with
      | none => none
      | some d =>
          if d.isEmpty then none
          else some { operation := dget d ("operation")
                      media_buy_id := dget d ("media_buy_id")
                      po_number := poNumber d } }

/-- The value returned by `list_tasks`. -/
structure ListTasksResult where
  tasks : List FormattedTask
  total : Nat
  offset : Nat
  limit : Nat
  has_more : Bool

/-- The `list_tasks` tool (`src/core/main.py`), after tenant resolution:
tenant-scoped base query, conjunctive filters, `total` counted over the
unpaginated query, ordering by `created_at` descending, then
`offset`/`limit` pagination and per-task formatting.
`has_more = offset + limit < total` (the `count()` scalar is never `None`
here, so the `else False` branch of the source is unreachable). -/
def list_tasks (db : Database) (tenant_id : String)
    (status object_type object_id : Option String) (limit offset : Nat) :
    ListTasksResult :=
  let rows := filteredRows db tenant_id status object_type object_id
  let total := rows.length
  let page := ((sortedRows rows).drop offset).take limit
  { tasks := page.map (formatTask db)
    total := total
    offset := offset
    limit := limit
    has_more := decide (offset + limit < total) }

/-- An associated object as `get_task` formats it (with `created_at`). -/
structure AssociatedObjectDetail where
  type : String
  id : String
  action : String
  created_at : String

/-- The detail record returned by `get_task`. -/
structure TaskDetail where
  task_id : String
  context_id : String
  status : String
  type : String
  tool_name : String
  owner : String
  created_at : String
  updated_at : Option String
  request_data : Option PyDict
  response_data : Option PyDict
  error_message : Option String
  associated_objects : List AssociatedObjectDetail

/-- The tenant-scoped lookup shared by `get_task` and `complete_task`:
`select(WorkflowStep).join(DBContext).where(step_id == task_id, tenant_id == ...)`,
taking the first row. -/
def findTask (db : Database) (tenant_id : String) (task_id : String) :
    Option WorkflowStep :=
  (db.steps.filter (fun s => s.step_id == task_id && stepInTenant db tenant_id s)).head?

/-- The `get_task` tool: tenant-scoped lookup, then either the not-found error
(the same `ValueError` for an absent and for a cross-tenant `task_id`) or the
full detail record. -/
def get_task (db : Database) (tenant_id : String) (task_id : String) :
    Except String TaskDetail :=
  match findTask db tenant_id task_id with
  | none => .error ("Task " ++ task_id ++ " not found")
  | some task =>
      .ok { task_id := task.step_id
            context_id := task.context_id
            status := task.status
            type := task.step_type
            tool_name := task.tool_name
            owner := task.owner
            created_at := isoformat task.created_at
            updated_at := none
            request_data := task.request_data
            response_data := task.response_data
            error_message := task.error_message
            associated_objects :=
              (db.mappings.filter (fun m => m.step_id == task_id)).map
                (fun m => { type := m.object_type
                            id := m.object_id
                            action := m.action
                            created_at := isoformat m.created_at }) }

/-- The receipt returned by a successful `complete_task` call. -/
structure CompleteTaskReceipt where
  task_id : String
  status : String
  message : String
  completed_at : String
  completed_by : Option String

/-- The default `response_data` of a manual completion:
`\x7b"manually_completed": True, "completed_by": principal_id\x7d`. -/
def manualMarker (principal_id : Option String) : PyDict :=
  [("manually_completed", JVal.boolean true),
   ("completed_by", match principal_id with
     | some p => JVal.str p
     | none => JVal.nullv)]

/-- The statuses from which completion is allowed (`complete_task`). -/
def activeStatuses : List String := ["pending", "in_progress", "requires_approval"]

/-- The `complete_task` tool, after tenant resolution.  In source order:
the status-value validation, the tenant-scoped lookup, the
invalid-transition check, then the single-transaction update of the found
row (`status`, `completed_at = now`, and `response_data`/`error_message`
according to the new status, with Python `or` falsy-defaulting) and the
receipt.  Errors are returned with the database unchanged — the raise
happens before any row field is assigned, and the session rolls back. -/
def complete_task (db : Database) (tenant_id : String) (principal_id : Option String)
    (now : Nat) (task_id : String) (status : String)
    (response_data : Option PyDict) (error_message : Option String) :
    Except String CompleteTaskReceipt × Database :=
  if !(status == "completed" || status == "failed") then
    (.error ("Invalid status '" ++ status ++ "'. Must be 'completed' or 'failed'"), db)
  else
    match findTask db tenant_id task_id with
    | none => (.error ("Task " ++ task_id ++ " not found"), db)
    | some task =>
        if !(activeStatuses.contains task.status) then
          (.error ("Task " ++ task_id ++ " is already " ++ task.status ++
                   " and cannot be completed"), db)
        else
          let updatedTask :=
            if status == "completed" then
              { task with
                status := status
                completed_at := some now
                response_data := some (pyDictOr response_data (manualMarker principal_id))
                error_message := none }
            else
              { task with
                status := status
                completed_at := some now
                error_message := some (pyStrOr error_message ("Task marked as failed manually"))
                response_data := if dictTruthy response_data then response_data
                                 else task.response_data }
          let db2 : Database :=
            { db with
              steps := db.steps.map (fun s =>
                if s.step_id == task.step_id then updatedTask else s) }
          (.ok { task_id := task_id
                 status := status
                 message := "Task " ++ task_id ++ " marked as " ++ status
                 completed_at := isoformat now
                 completed_by := principal_id }, db2)

/-- All row orders the SQL query of `list_tasks` may return for a page: some
permutation of the filtered rows, sorted by `created_at` descending (the only
constraint `ORDER BY` imposes), with `offset`/`limit` applied. -/
def possibleSelection (db : Database) (tenant_id : String)
    (status object_type object_id : Option String) (limit offset : Nat)
    (sel : List WorkflowStep) : Prop :=
  ∃ l : List WorkflowStep,
    l.Perm (filteredRows db tenant_id status object_type object_id) ∧
    List.Sorted taskOrder l ∧
    sel = (l.drop offset).take limit

/-! Concrete data used by witnesses and counterexamples. -/

/-- A context of tenant `t1`. -/
def ctxW : DBContext := { context_id := "ctx1", tenant_id := "t1" }

/-- A pending step in `ctxW`. -/
def stepW : WorkflowStep :=
  { step_id := "s1", context_id := "ctx1", status := "pending"
    step_type := "approval", tool_name := "create_media_buy", owner := "principal_p1"
    created_at := 10, completed_at := none, request_data := none
    response_data := none, error_message := none }

/-- A one-tenant, one-step database. -/
def dbW : Database := { contexts := [ctxW], steps := [stepW], mappings := [] }

/-- An already-completed step. -/
def stepDone : WorkflowStep :=
  { stepW with step_id := "s9", status := "completed", completed_at := some 7 }

/-- A database holding only a terminal step. -/
def dbDone : Database := { contexts := [ctxW], steps := [stepDone], mappings := [] }

/-- Two steps sharing one `created_at` value. -/
def stepTa : WorkflowStep := { stepW with step_id := "sa", created_at := 5 }

/-- Second step with the tied timestamp. -/
def stepTb : WorkflowStep := { stepW with step_id := "sb", created_at := 5 }

/-- A database whose two steps tie on `created_at`. -/
def dbTie : Database := { contexts := [ctxW], steps := [stepTa, stepTb], mappings := [] }

/-- A database in which no step exists at all. -/
def dbNoSteps : Database := { contexts := [ctxW], steps := [], mappings := [] }

/-- The terminal-status invariant of the spec: `completed_at` is set if and
only if the step's status is `completed` or `failed`. -/
def stepInvariant (s : WorkflowStep) : Prop :=
  s.completed_at ≠ none ↔ (s.status = "completed" ∨ s.status = "failed")

/-! Helper lemmas about the query pipeline. -/

lemma mem_tenantRows {db : Database} {tid : String} {s : WorkflowStep}
    (h : s ∈ tenantRows db tid) : s ∈ db.steps ∧ stepInTenant db tid s = true :=
  List.mem_filter.mp h

lemma mem_statusRows {rows : List WorkflowStep} {st : Option String} {s : WorkflowStep}
    (h : s ∈ statusRows rows st) : s ∈ rows := by
  cases st with
  | none => exact h
  | some v =>
      simp only [statusRows] at h
      split at h
      · exact h
      · exact (List.mem_filter.mp h).1

lemma mem_joinTypeId {db : Database} {rows : List WorkflowStep} {ot oid : String}
    {s : WorkflowStep} (h : s ∈ joinTypeId db rows ot oid) : s ∈ rows := by
  unfold joinTypeId at h
  obtain ⟨a, ha, hs⟩ := List.mem_flatMap.mp h
  obtain ⟨m, _, hm⟩ := List.mem_map.mp hs
  exact hm ▸ ha

lemma mem_joinType {db : Database} {rows : List WorkflowStep} {ot : String}
    {s : WorkflowStep} (h : s ∈ joinType db rows ot) : s ∈ rows := by
  unfold joinType at h
  obtain ⟨a, ha, hs⟩ := List.mem_flatMap.mp h
  obtain ⟨m, _, hm⟩ := List.mem_map.mp hs
  exact hm ▸ ha

lemma mem_objectRows {db : Database} {rows : List WorkflowStep} {ot oid : Option String}
    {s : WorkflowStep} (h : s ∈ objectRows db rows ot oid) : s ∈ rows := by
  cases ot with
  | none => exact h
  | some vt =>
      cases oid with
      | none =>
          simp only [objectRows] at h
          split at h
          · exact h
          · exact mem_joinType h
      | some vi =>
          simp only [objectRows] at h
          split at h
          · exact h
          · split at h
            · exact mem_joinType h
            · exact mem_joinTypeId h

lemma mem_filteredRows {db : Database} {tid : String} {st ot oid : Option String}
    {s : WorkflowStep} (h : s ∈ filteredRows db tid st ot oid) :
    s ∈ db.steps ∧ stepInTenant db tid s = true :=
  mem_tenantRows (mem_statusRows (mem_objectRows h))

lemma stepInTenant_context {db : Database} {tid : String} {s : WorkflowStep}
    (h : stepInTenant db tid s = true) :
    ∃ c ∈ db.contexts, c.context_id = s.context_id ∧ c.tenant_id = tid := by
  obtain ⟨c, hc, hb⟩ := List.any_eq_true.mp h
  rw [Bool.and_eq_true] at hb
  exact ⟨c, hc, eq_of_beq hb.1, eq_of_beq hb.2⟩

lemma complete_task_invalid_status (db : Database) (tid : String)
    (pid : Option String) (now : Nat) (task_id st : String)
    (rd : Option PyDict) (em : Option String)
    (h1 : st ≠ "completed") (h2 : st ≠ "failed") :
    complete_task db tid pid now task_id st rd em =
      (.error ("Invalid status '" ++ st ++ "'. Must be 'completed' or 'failed'"), db) := by
  have hb1 : (st == "completed") = false := beq_eq_false_iff_ne.mpr h1
  have hb2 : (st == "failed") = false := beq_eq_false_iff_ne.mpr h2
  simp [complete_task, hb1, hb2]

lemma invalid_msg_ne_notfound_msg (st task_id : String) :
    ("Invalid status '" ++ st ++ "'. Must be 'completed' or 'failed'") ≠
      ("Task " ++ task_id ++ " not found") := by
  intro h
  have h2 := congrArg (fun s => s.data.head?) h
  simp only [String.data_append] at h2
  have hL : (("Invalid status '").data ++ st.data ++
      ("'. Must be 'completed' or 'failed'").data).head? = some 'I' := rfl
  have hR : (("Task ").data ++ task_id.data ++ (" not found").data).head? = some 'T' := rfl
  rw [hL, hR] at h2
  exact absurd (Option.some.inj h2) (by decide)

/-! Claim theorems. -/

/-- C9: for every tenant and every `object_id` value, calling `list_tasks`
with `object_id` set but `object_type` absent returns exactly the same result
as the same call with `object_id` absent — the `object_id` filter silently has
no effect when `object_type` is not also supplied, rather than being
rejected. -/
theorem C9_object_id_without_type_ignored (db : Database) (tenant_id : String)
    (status : Option String) (object_id : String) (limit offset : Nat) :
    list_tasks db tenant_id status none (some object_id) limit offset =
      list_tasks db tenant_id status none none limit offset := rfl

/-- C7: for every call to `complete_task` with a status value outside
`\x7b"completed", "failed"\x7d`, the call is rejected with the invalid-status
error before any database mutation: the returned database is exactly the one
passed in. -/
theorem C7_invalid_status_rejected_before_mutation (db : Database) (tenant_id : String)
    (principal_id : Option String) (now : Nat) (task_id st : String)
    (response_data : Option PyDict) (error_message : Option String)
    (h1 : st ≠ "completed") (h2 : st ≠ "failed") :
    complete_task db tenant_id principal_id now task_id st response_data error_message =
      (.error ("Invalid status '" ++ st ++ "'. Must be 'completed' or 'failed'"), db) :=
  complete_task_invalid_status db tenant_id principal_id now task_id st
    response_data error_message h1 h2

/-- Witness for C7 at a concrete call: status `"approved"` is rejected and the
database comes back unchanged. -/
theorem C7_witness :
    complete_task dbW "t1" (some ("p1")) 0 "s1" "approved" none none =
      (.error ("Invalid status 'approved'. Must be 'completed' or 'failed'"), dbW) :=
  C7_invalid_status_rejected_before_mutation dbW "t1" (some ("p1")) 0 "s1" "approved"
    none none (by decide) (by decide)

/-- C10: in `complete_task` the status-value validation precedes the
tenant-scoped lookup, so a call with an invalid status and a `task_id`
existing in no tenant raises the invalid-status error and never the
not-found error. -/
theorem C10_validation_precedes_lookup (db : Database) (tenant_id : String)
    (principal_id : Option String) (now : Nat) (task_id st : String)
    (response_data : Option PyDict) (error_message : Option String)
    (h1 : st ≠ "completed") (h2 : st ≠ "failed")
    (habsent : ∀ s ∈ db.steps, s.step_id ≠ task_id) :
    (complete_task db tenant_id principal_id now task_id st response_data error_message).1 =
      .error ("Invalid status '" ++ st ++ "'. Must be 'completed' or 'failed'") ∧
    (complete_task db tenant_id principal_id now task_id st response_data error_message).1 ≠
      .error ("Task " ++ task_id ++ " not found") := by
  have h := complete_task_invalid_status db tenant_id principal_id now task_id st
    response_data error_message h1 h2
  rw [h]
  exact ⟨rfl, fun hc => invalid_msg_ne_notfound_msg st task_id (Except.error.inj hc)⟩

/-- Witness for C10 at a concrete call: status `"approved"` with a `task_id`
absent from every tenant yields the invalid-status error, not not-found. -/
theorem C10_witness :
    (complete_task dbW "t1" (some ("p1")) 0 "zzz" "approved" none none).1 =
      .error ("Invalid status 'approved'. Must be 'completed' or 'failed'") ∧
    (complete_task dbW "t1" (some ("p1")) 0 "zzz" "approved" none none).1 ≠
      .error ("Task zzz not found") :=
  C10_validation_precedes_lookup dbW "t1" (some ("p1")) 0 "zzz" "approved" none none
    (by decide) (by decide) (by decide)

/-- C4: whenever no step with the given `task_id` is visible to the resolved
tenant — because no such step exists at all, or because every such step's
context belongs to a different tenant — `get_task` fails, and with the very
same not-found error in both cases, so a cross-tenant `task_id` is
indistinguishable from a nonexistent one. -/
theorem C4_cross_tenant_indistinguishable (db : Database) (tenant_id task_id : String)
    (hinvisible : ∀ s ∈ db.steps, s.step_id = task_id → stepInTenant db tenant_id s = false) :
    get_task db tenant_id task_id = .error ("Task " ++ task_id ++ " not found") := by
  have hnil : db.steps.filter
      (fun s => s.step_id == task_id && stepInTenant db tenant_id s) = [] := by
    rw [List.filter_eq_nil_iff]
    intro s hs
    by_cases hid : s.step_id = task_id
    · simp [hid, hinvisible s hs hid]
    · simp [beq_eq_false_iff_ne.mpr hid]
  simp [get_task, findTask, hnil]

/-- Witness for C4: `s1` exists and belongs to tenant `t1`, yet `get_task`
resolved for tenant `t2` reports exactly the not-found error — the same value
`get_task` yields for `s1` in a database where the step does not exist. -/
theorem C4_witness :
    get_task dbW "t2" "s1" = .error ("Task s1 not found") ∧
    get_task dbW "t2" "s1" = get_task dbNoSteps "t2" "s1" ∧
    stepInTenant dbW "t1" stepW = true := by
  refine ⟨C4_cross_tenant_indistinguishable dbW "t2" "s1" (by decide), ?_, by decide⟩
  rw [C4_cross_tenant_indistinguishable dbW "t2" "s1" (by decide)]
  rfl

/-- C2: completing a task whose current status is already `completed` or
`failed` (with a valid target status) fails with the invalid-transition error,
whose message carries the current status, and the database — in particular
every field of the step's record — is returned unchanged. -/
theorem C2_terminal_completion_fails_unchanged (db : Database) (tenant_id : String)
    (principal_id : Option String) (now : Nat) (task_id st : String)
    (response_data : Option PyDict) (error_message : Option String)
    (task : WorkflowStep)
    (hst : st = "completed" ∨ st = "failed")
    (hfind : findTask db tenant_id task_id = some task)
    (hterm : task.status = "completed" ∨ task.status = "failed") :
    complete_task db tenant_id principal_id now task_id st response_data error_message =
      (.error ("Task " ++ task_id ++ " is already " ++ task.status ++
        " and cannot be completed"), db) := by
  rcases hst with h | h <;> rcases hterm with ht | ht <;>
    simp [complete_task, hfind, h, ht, activeStatuses]

/-- Witness for C2: re-completing the already-completed step `s9` fails with
the message naming its current status and leaves the database untouched. -/
theorem C2_witness :
    complete_task dbDone "t1" (some ("p1")) 42 "s9" "failed" none none =
      (.error ("Task s9 is already completed and cannot be completed"), dbDone) :=
  C2_terminal_completion_fails_unchanged dbDone "t1" (some ("p1")) 42 "s9" "failed"
    none none stepDone (Or.inr rfl) rfl (Or.inl rfl)

/-- Counterexample to C6 as stated: completing pending step `s1` while
supplying the empty dict as `response_data` succeeds, yet the stored
`response_data` is the manual-completion marker, not the supplied value —
`response_data or \x7b...\x7d` in the source falls back on any falsy dict, not
only on an absent one. -/
theorem C6_counterexample :
    (complete_task dbW "t1" (some ("p1")) 99 "s1" "completed" (some []) none).1 =
      .ok { task_id := "s1"
            status := "completed"
            message := "Task s1 marked as completed"
            completed_at := "99"
            completed_by := some ("p1") } ∧
    (complete_task dbW "t1" (some ("p1")) 99 "s1" "completed" (some []) none).2.steps.map
      (fun s => s.response_data) = [some (manualMarker (some ("p1")))] ∧
    manualMarker (some ("p1")) ≠ ([] : PyDict) :=
  ⟨rfl, rfl, fun h => List.noConfusion h⟩

/-- C6 as amended: for every successful `complete_task` call the receipt is
`\x7btask_id, status, message, completed_at, completed_by\x7d` and the found
step is rewritten with the requested terminal status and `completed_at = now`;
when the status is `completed`, `response_data` becomes the supplied value if
that value is truthy (present and non-empty) and the manual-completion marker
naming the acting principal otherwise, while `error_message` is cleared; when
the status is `failed`, `error_message` becomes the supplied value if truthy
and the generic default otherwise, and `response_data` is overwritten only
when the supplied value is truthy.  All other steps are untouched. -/
theorem C6_success_effects (db : Database) (tenant_id : String)
    (principal_id : Option String) (now : Nat) (task_id st : String)
    (response_data : Option PyDict) (error_message : Option String)
    (task : WorkflowStep)
    (hst : st = "completed" ∨ st = "failed")
    (hfind : findTask db tenant_id task_id = some task)
    (hactive : task.status = "pending" ∨ task.status = "in_progress" ∨
      task.status = "requires_approval") :
    (complete_task db tenant_id principal_id now task_id st response_data error_message).1 =
      .ok { task_id := task_id
            status := st
            message := "Task " ++ task_id ++ " marked as " ++ st
            completed_at := isoformat now
            completed_by := principal_id } ∧
    (complete_task db tenant_id principal_id now task_id st response_data error_message).2.steps =
      db.steps.map (fun s =>
        if s.step_id == task.step_id then
          if st = "completed" then
            { task with
              status := st
              completed_at := some now
              response_data := some (pyDictOr response_data (manualMarker principal_id))
              error_message := none }
          else
            { task with
              status := st
              completed_at := some now
              error_message := some (pyStrOr error_message ("Task marked as failed manually"))
              response_data := if dictTruthy response_data then response_data
                               else task.response_data }
        else s) := by
  rcases hst with h | h <;>
    rcases hactive with ht | ht | ht <;>
      simp [complete_task, hfind, h, ht, activeStatuses]

/-- Witness for C6 (amended) at a concrete call: failing pending step `s1`
with no supplied `error_message` stores the generic default, sets
`completed_at`, keeps `response_data`, and returns the receipt. -/
theorem C6_witness :
    (complete_task dbW "t1" (some ("p1")) 99 "s1" "failed" none none).1 =
      .ok { task_id := "s1"
            status := "failed"
            message := "Task s1 marked as failed"
            completed_at := "99"
            completed_by := some ("p1") } ∧
    (complete_task dbW "t1" (some ("p1")) 99 "s1" "failed" none none).2.steps =
      [{ stepW with
         status := "failed"
         completed_at := some 99
         error_message := some ("Task marked as failed manually")
         response_data := none }] :=
  C6_success_effects dbW "t1" (some ("p1")) 99 "s1" "failed" none none stepW
    (Or.inr rfl) rfl (Or.inl rfl)

/-- C3: the completion operation preserves the invariant that `completed_at`
is set iff the status is terminal — every database in which all steps satisfy
it still satisfies it after any `complete_task` call, because a successful
call writes the terminal status and `completed_at = now` together and every
error path leaves the rows untouched. -/
theorem C3_completed_at_iff_terminal (db : Database) (tenant_id : String)
    (principal_id : Option String) (now : Nat) (task_id st : String)
    (response_data : Option PyDict) (error_message : Option String)
    (hdb : ∀ s ∈ db.steps, stepInvariant s) :
    ∀ s ∈ (complete_task db tenant_id principal_id now task_id st
      response_data error_message).2.steps, stepInvariant s := by
  intro s hs
  by_cases h1 : (st == "completed" || st == "failed") = true
  · have hnot : (!(st == "completed" || st == "failed")) = false := by rw [h1]; rfl
    cases hfind : findTask db tenant_id task_id with
    | none =>
        simp only [complete_task, hnot, Bool.false_eq_true, if_false, hfind] at hs
        exact hdb s hs
    | some task =>
        by_cases hact : activeStatuses.contains task.status = true
        · have hnact : (!(activeStatuses.contains task.status)) = false := by rw [hact]; rfl
          simp only [complete_task, hnot, Bool.false_eq_true, if_false, hfind, hnact] at hs
          obtain ⟨s0, hs0, hseq⟩ := List.mem_map.mp hs
          by_cases hid : (s0.step_id == task.step_id) = true
          · rw [if_pos hid] at hseq
            subst hseq
            by_cases hc : (st == "completed") = true
            · rw [if_pos hc]
              have hst : st = "completed" := eq_of_beq hc
              simp [stepInvariant, hst]
            · have hf : (st == "failed") = true := by
                rcases Bool.or_eq_true_iff.mp h1 with h | h
                · exact absurd h hc
                · exact h
              rw [if_neg hc]
              have hst : st = "failed" := eq_of_beq hf
              simp [stepInvariant, hst]
          · rw [if_neg hid] at hseq
            subst hseq
            exact hdb s0 hs0
        · have hcf : activeStatuses.contains task.status = false := Bool.eq_false_iff.mpr hact
          have hnact : (!(activeStatuses.contains task.status)) = true := by rw [hcf]; rfl
          simp only [complete_task, hnot, Bool.false_eq_true, if_false, hfind, hnact,
            if_true] at hs
          exact hdb s hs
  · have hcf : (st == "completed" || st == "failed") = false := Bool.eq_false_iff.mpr h1
    have hnot : (!(st == "completed" || st == "failed")) = true := by rw [hcf]; rfl
    simp only [complete_task, hnot, if_true] at hs
    exact hdb s hs

/-- Witness for C3 at a concrete call: the invariant holds on `dbW` and the
step produced by successfully completing `s1` satisfies it, with the terminal
status and `completed_at` set together. -/
theorem C3_witness :
    stepInvariant { stepW with
      status := "completed"
      completed_at := some 99
      response_data := some (manualMarker (some ("p1")))
      error_message := none } := by
  have hsteps : (complete_task dbW "t1" (some ("p1")) 99 "s1" "completed" none none).2.steps
      = [{ stepW with
           status := "completed"
           completed_at := some 99
           response_data := some (manualMarker (some ("p1")))
           error_message := none }] := rfl
  refine C3_completed_at_iff_terminal dbW "t1" (some ("p1")) 99 "s1" "completed"
    none none ?_ _ ?_
  · intro s hs
    rw [List.mem_singleton.mp hs]
    simp [stepInvariant, stepW]
  · rw [hsteps]
    exact List.mem_singleton.mpr rfl

/-- C1: for every resolved tenant and every combination of the `status`,
`object_type` and `object_id` filters, every task returned by `list_tasks` is
the formatting of a step that belongs to a Context whose `tenant_id` equals
the resolved tenant's — no step of another tenant ever appears. -/
theorem C1_list_tasks_tenant_scoped (db : Database) (tenant_id : String)
    (status object_type object_id : Option String) (limit offset : Nat) :
    ∀ t ∈ (list_tasks db tenant_id status object_type object_id limit offset).tasks,
      ∃ s ∈ db.steps, t = formatTask db s ∧
        ∃ c ∈ db.contexts, c.context_id = s.context_id ∧ c.tenant_id = tenant_id := by
  intro t ht
  simp only [list_tasks] at ht
  obtain ⟨s, hs, hfmt⟩ := List.mem_map.mp ht
  have hsub : (((sortedRows (filteredRows db tenant_id status object_type object_id)).drop
      offset).take limit).Sublist
      (sortedRows (filteredRows db tenant_id status object_type object_id)) :=
    (List.take_sublist _ _).trans (List.drop_sublist _ _)
  have h2 : s ∈ filteredRows db tenant_id status object_type object_id :=
    (List.perm_insertionSort taskOrder _).mem_iff.mp (hsub.subset hs)
  obtain ⟨hmem, hten⟩ := mem_filteredRows h2
  exact ⟨s, hmem, hfmt.symm, stepInTenant_context hten⟩

/-- Witness for C1 at a concrete call: the one listed task of tenant `t1`
comes from a step whose context belongs to `t1`. -/
theorem C1_witness :
    (formatTask dbW stepW ∈ (list_tasks dbW "t1" none none none 20 0).tasks) ∧
    ∃ s ∈ dbW.steps, formatTask dbW stepW = formatTask dbW s ∧
      ∃ c ∈ dbW.contexts, c.context_id = s.context_id ∧ c.tenant_id = "t1" := by
  have hmem : formatTask dbW stepW ∈ (list_tasks dbW "t1" none none none 20 0).tasks := by
    have h : (list_tasks dbW "t1" none none none 20 0).tasks = [formatTask dbW stepW] := rfl
    rw [h]
    exact List.mem_singleton.mpr rfl
  exact ⟨hmem, C1_list_tasks_tenant_scoped dbW "t1" none none none 20 0 _ hmem⟩

/-- C5: `total` equals the length of the filtered, unpaginated query and is
independent of `limit` and `offset`; `has_more` always equals
`offset + limit < total`; and whenever `offset ≥ total` the task list is
empty and `has_more` is `false`. -/
theorem C5_total_and_has_more (db : Database) (tenant_id : String)
    (status object_type object_id : Option String) (limit offset limit2 offset2 : Nat) :
    (list_tasks db tenant_id status object_type object_id limit offset).total =
      (filteredRows db tenant_id status object_type object_id).length ∧
    (list_tasks db tenant_id status object_type object_id limit offset).total =
      (list_tasks db tenant_id status object_type object_id limit2 offset2).total ∧
    (list_tasks db tenant_id status object_type object_id limit offset).has_more =
      decide (offset + limit <
        (list_tasks db tenant_id status object_type object_id limit offset).total) ∧
    ((list_tasks db tenant_id status object_type object_id limit offset).total ≤ offset →
      (list_tasks db tenant_id status object_type object_id limit offset).tasks = [] ∧
      (list_tasks db tenant_id status object_type object_id limit offset).has_more = false) := by
  refine ⟨rfl, rfl, rfl, fun h => ⟨?_, ?_⟩⟩
  · have hlen : (sortedRows (filteredRows db tenant_id status object_type
        object_id)).length =
        (filteredRows db tenant_id status object_type object_id).length :=
      (List.perm_insertionSort taskOrder _).length_eq
    have hle : (sortedRows (filteredRows db tenant_id status object_type
        object_id)).length ≤ offset := by rw [hlen]; exact h
    have hdrop : (sortedRows (filteredRows db tenant_id status object_type
        object_id)).drop offset = [] := List.drop_eq_nil_of_le hle
    simp only [list_tasks]
    rw [hdrop]
    simp
  · have hnlt : ¬ (offset + limit <
        (filteredRows db tenant_id status object_type object_id).length) :=
      Nat.not_lt.mpr (Nat.le_trans h (Nat.le_add_right offset limit))
    simp only [list_tasks]
    exact decide_eq_false hnlt

/-- Witness for C5 at a concrete call with `offset` beyond `total`: the task
list is empty and `has_more` is `false`. -/
theorem C5_witness :
    (list_tasks dbW "t1" none none none 20 5).tasks = [] ∧
    (list_tasks dbW "t1" none none none 20 5).has_more = false :=
  (C5_total_and_has_more dbW "t1" none none none 20 5 0 0).2.2.2 (by decide)

/-- Counterexample to C8 as stated: the ordering of `list_tasks` is NOT
deterministic under pagination, because the source orders by `created_at`
descending alone, with no secondary sort key.  On a database whose two steps
tie on `created_at`, both orders of the first page satisfy every constraint
the query imposes, and they differ. -/
theorem C8_counterexample :
    possibleSelection dbTie "t1" none none none 20 0 [stepTa, stepTb] ∧
    possibleSelection dbTie "t1" none none none 20 0 [stepTb, stepTa] ∧
    [stepTa, stepTb] ≠ [stepTb, stepTa] := by
  have hrows : filteredRows dbTie "t1" none none none = [stepTa, stepTb] := rfl
  have hs1 : List.Sorted taskOrder [stepTa, stepTb] := by
    simp [List.sorted_cons, taskOrder, stepTa, stepTb, stepW]
  have hs2 : List.Sorted taskOrder [stepTb, stepTa] := by
    simp [List.sorted_cons, taskOrder, stepTa, stepTb, stepW]
  refine ⟨⟨[stepTa, stepTb], ?_, hs1, rfl⟩, ⟨[stepTb, stepTa], ?_, hs2, rfl⟩, ?_⟩
  · rw [hrows]
  · rw [hrows]
    exact List.Perm.swap stepTa stepTb []
  · intro h
    exact absurd (congrArg (List.map WorkflowStep.step_id) h) (by decide)

/-- C8 as amended: every page `list_tasks` may return is ordered by
descending creation time, but the code imposes no secondary sort key, so
when `created_at` values tie the order — and therefore pagination — is not
deterministic. -/
theorem C8_descending_order (db : Database) (tenant_id : String)
    (status object_type object_id : Option String) (limit offset : Nat)
    (sel : List WorkflowStep)
    (h : possibleSelection db tenant_id status object_type object_id limit offset sel) :
    List.Sorted taskOrder sel := by
  obtain ⟨l, hperm, hsort, hsel⟩ := h
  subst hsel
  exact List.Pairwise.sublist ((List.take_sublist _ _).trans (List.drop_sublist _ _)) hsort

/-- Witness for C8 (amended) at a concrete page: the selected page on `dbTie`
is sorted by descending `created_at`. -/
theorem C8_witness : List.Sorted taskOrder [stepTa, stepTb] := by
  refine C8_descending_order dbTie "t1" none none none 20 0 [stepTa, stepTb]
    ⟨[stepTa, stepTb], List.Perm.refl _, ?_, rfl⟩
  simp [List.sorted_cons, taskOrder, stepTa, stepTb, stepW]
